import Mathlib

/-!
Shallow embedding of the rDnaTools pipeline orchestrator
(`src/rDnaPipeline_Old.py`) and of the CCS-read extraction module
(`src/pbrdna/io/extract_ccs.py`).

The filesystem is modelled as an association list from path to size in
bytes.  External jobs and internal filter steps are opaque: each stage
takes the filesystem `fs` seen when the stage is invoked and the
filesystem `post` left behind by the stage's job, and returns the
resolved output path(s), the updated process counter, and a trace of
the observable effects the stage body itself performed (jobs run, files
written or removed).  Python exceptions are modelled with `Except`.
-/

namespace RDna

/-- A filesystem: a finite map from path to file size in bytes. -/
abbrev FS := List (String × Nat)

/-- Size of the file at path `p`, if present. -/
def lookupSize (fs : FS) (p : String) : Option Nat :=
  match fs.find? (fun e => e.1 = p) with
  | some e => some e.2
  | none => none

/-- Embeds Python's `os.path.exists`: the path is present, empty or not. -/
def path_exists (fs : FS) (p : String) : Bool :=
  (lookupSize fs p).isSome

/-- Modelled from the spec: `file_exists` (pbrdna.utils, not under src/) —
the CheckpointGuard primitive, true iff the path exists and is non-empty
on disk. -/
def file_exists (fs : FS) (p : String) : Bool :=
  match lookupSize fs p with
  | some n => decide (0 < n)
  | none => false

/-- Modelled from the spec: `all_files_exist` (pbrdna.utils, not under
src/) — true iff every listed path exists and is non-empty. -/
def all_files_exist (fs : FS) (ps : List String) : Bool :=
  ps.all (file_exists fs)

/-- Insert or overwrite the file at path `p` with size `n`. -/
def setFile (fs : FS) (p : String) (n : Nat) : FS :=
  (p, n) :: fs.filter (fun e => e.1 ≠ p)

/-- `leads p s` is true iff the character list `p` is an initial segment
of `s` (a structurally recursive stand-in for the string-position-based
library functions, which do not reduce definitionally). -/
def leads : List Char → List Char → Bool
  | [], _ => true
  | _ :: _, [] => false
  | a :: as, b :: bs => a == b && leads as bs

/-- `strEndsWith s p` embeds Python's `str.endswith`. -/
def strEndsWith (s p : String) : Bool :=
  leads p.data.reverse s.data.reverse

/-- Split a character list at every dot; the dots are dropped. -/
def splitDots : List Char → List (List Char)
  | [] => [[]]
  | c :: rest =>
    let r := splitDots rest
    if c == '.' then [] :: r
    else
      match r with
      | [] => [[c]]
      | h :: t => (c :: h) :: t

/-- Re-join dot-separated segments, the inverse of `splitDots`. -/
def joinDots : List (List Char) → List Char
  | [] => []
  | [x] => x
  | x :: rest => x ++ '.' :: joinDots rest

/-- Modelled from the spec: `split_root_from_ext` (pbrdna.utils, not under
src/) — splits a path into its root and terminal extension segment; the
compound extension `.bas.h5` is treated as one terminal segment, matching
the classification families used by `validate_settings`. -/
def split_root_from_ext (p : String) : String × String :=
  if strEndsWith p ".bas.h5" then
    (String.mk (p.data.take (p.data.length - 7)), ".bas.h5")
  else
    let parts := splitDots p.data
    if parts.length ≤ 1 then (p, "")
    else
      (String.mk (joinDots parts.dropLast),
       String.mk ('.' :: parts.getLastD []))

/-- Modelled from the spec: `get_output_name` (pbrdna.utils, not under
src/) — the ArtifactNameResolver: replaces the trailing extension of the
input path with the given suffix, preserving the base name. -/
def get_output_name (inputFile suffix : String) : String :=
  (split_root_from_ext inputFile).1 ++ "." ++ suffix

/-- Zero-padded rendering of the process counter, embedding the C-style
format `%02d` for non-negative arguments. -/
def fmt2 (n : Nat) : String :=
  if n < 10 then "0" ++ toString n else toString n

/-- Embeds `rDnaPipeline.getProcessLogFile`: the per-stage log file path,
inside the `log/` subdirectory.  Mothur (external) processes get an extra
`mothur.` component in the name. -/
def getProcessLogFile (processCount : Nat) (process : String)
    (isMothurProcess : Bool) : String :=
  if isMothurProcess then
    "log/process" ++ fmt2 processCount ++ ".mothur." ++ process ++ ".logfile"
  else
    "log/process" ++ fmt2 processCount ++ "." ++ process ++ ".logfile"

/-- Embeds the single-suffix branch of `rDnaPipeline.process_setup`:
increments the process counter and resolves the output name. -/
def process_setup (count : Nat) (inputFile suffix : String) : String × Nat :=
  (get_output_name inputFile suffix, count + 1)

/-- Embeds the suffix-list branch of `rDnaPipeline.process_setup`. -/
def process_setup_list (count : Nat) (inputFile : String)
    (suffixList : List String) : List String × Nat :=
  (suffixList.map (get_output_name inputFile), count + 1)

/-- Embeds `rDnaPipeline.output_files_exist`; the `if output_file:` /
`elif output_list:` tests are Python truthiness tests, so an empty string
or empty list falls through, and if both arguments are missing the Python
function returns `None`, modelled as `none`. -/
def output_files_exist (fs : FS) (output_file : Option String)
    (output_list : Option (List String)) : Option Bool :=
  if output_file.getD "" ≠ "" then
    some (file_exists fs (output_file.getD ""))
  else if output_list.getD [] ≠ [] then
    some (all_files_exist fs (output_list.getD []))
  else
    none

/-- Embeds `rDnaPipeline.check_output_file`: checks `os.path.exists` and
raises `IOError` when the expected output is absent. -/
def check_output_file (fs : FS) (outputFile : String) : Except String Unit :=
  if path_exists fs outputFile then .ok ()
  else .error ("Expected output \"" ++ outputFile ++ "\" not found!")

/-- Checks each file of a list in order, stopping at the first missing
one — the loop body of `process_cleanup`. -/
def check_output_files (fs : FS) : List String → Except String Unit
  | [] => .ok ()
  | f :: rest =>
    match check_output_file fs f with
    | .ok _ => check_output_files fs rest
    | .error e => .error e

/-- Embeds `rDnaPipeline.process_cleanup`: the post-condition validator,
again with Python truthiness on its two optional arguments. -/
def process_cleanup (fs : FS) (output_file : Option String)
    (output_list : Option (List String)) : Except String Unit :=
  if output_file.getD "" ≠ "" then
    check_output_file fs (output_file.getD "")
  else if output_list.getD [] ≠ [] then
    check_output_files fs (output_list.getD [])
  else
    .ok ()

/-- Observable effects performed by a stage body itself (the external
job's own writes are opaque and live in the `post` filesystem). -/
inductive Effect where
  | runJob (name logFile : String)
  | writeFile (path : String)
  | removeFile (path : String)
  | queryCcs
deriving DecidableEq

/-- Result of a single-output stage: resolved output path, updated
process counter, and the effect trace of the stage body. -/
abbrev StageOut := String × Nat × List Effect

/-- Result of a list-output stage. -/
abbrev StageListOut := List String × Nat × List Effect

/-! ## Stage methods of `rDnaPipeline`

Each stage follows the uniform protocol of the source: `process_setup`
(counter increment and name resolution), `output_files_exist`
(checkpoint: skip when present), execute the external job or the
internal step, `process_cleanup` (post-condition).  `fs` is the
filesystem when the stage is invoked; `post` is the filesystem after
the stage's job or internal step has run. -/

/-- Embeds `rDnaPipeline.extract_raw_ccs`.  `has_ccs` is the oracle
answer of `file_has_ccs(inputFile)`; note the checkpoint test comes
first, so the oracle is only consulted (trace entry `queryCcs`) when the
expected output is absent. -/
def extract_raw_ccs (fs post : FS) (count : Nat) (has_ccs : Bool)
    (inputFile : String) : Except String StageOut :=
  let (outputFile, count) := process_setup count inputFile "fastq"
  if output_files_exist fs (some outputFile) none = some true then
    .ok (outputFile, count, [])
  else if has_ccs then
    match process_cleanup post (some outputFile) none with
    | .ok _ => .ok (outputFile, count, [.queryCcs, .writeFile outputFile])
    | .error e => .error e
  else
    .error "ValueError: Raw data file has no CCS data!"

/-- Embeds `rDnaPipeline.filter_fastq` (internal step `quality_filter`). -/
def filter_fastq (fs post : FS) (count : Nat) (fastqFile : String) :
    Except String StageOut :=
  let (outputFile, count) := process_setup count fastqFile "filter.fastq"
  if output_files_exist fs (some outputFile) none = some true then
    .ok (outputFile, count, [])
  else
    match process_cleanup post (some outputFile) none with
    | .ok _ => .ok (outputFile, count, [.writeFile outputFile])
    | .error e => .error e

/-- Embeds `rDnaPipeline.separate_fastq` (external job `fastq.info`). -/
def separate_fastq (fs post : FS) (count : Nat) (fastqFile : String) :
    Except String StageListOut :=
  let (outputList, count) := process_setup_list count fastqFile ["fasta", "qual"]
  if output_files_exist fs none (some outputList) = some true then
    .ok (outputList, count, [])
  else
    let logFile := getProcessLogFile count "fastq.info" true
    match process_cleanup post none (some outputList) with
    | .ok _ => .ok (outputList, count, [.runJob "fastq.info" logFile])
    | .error e => .error e

/-- Embeds `rDnaPipeline.align_sequences` (external job `align.seqs`). -/
def align_sequences (fs post : FS) (count : Nat) (fastaFile : String) :
    Except String StageOut :=
  let (outputFile, count) := process_setup count fastaFile "align"
  if output_files_exist fs (some outputFile) none = some true then
    .ok (outputFile, count, [])
  else
    let logFile := getProcessLogFile count "align.seqs" true
    match process_cleanup post (some outputFile) none with
    | .ok _ => .ok (outputFile, count, [.runJob "align.seqs" logFile])
    | .error e => .error e

/-- Embeds `rDnaPipeline.summarize_sequences` (external job
`summary.seqs`). -/
def summarize_sequences (fs post : FS) (count : Nat) (fastaFile : String) :
    Except String StageOut :=
  let (outputFile, count) := process_setup count fastaFile "summary"
  if output_files_exist fs (some outputFile) none = some true then
    .ok (outputFile, count, [])
  else
    let logFile := getProcessLogFile count "summary.seqs" true
    match process_cleanup post (some outputFile) none with
    | .ok _ => .ok (outputFile, count, [.runJob "summary.seqs" logFile])
    | .error e => .error e

/-- The output-suffix selection at the top of
`rDnaPipeline.screen_sequences`; `none` models the Python local variable
`outputExt` being left unassigned. -/
def screen_suffix (alignFile : String) : Option String :=
  if strEndsWith alignFile ".align" then some "good.align"
  else if strEndsWith alignFile ".fasta" then some "good.fasta"
  else none

/-- Embeds `rDnaPipeline.screen_sequences` (external job `screen.seqs`).
When neither suffix matches, Python raises `UnboundLocalError` while
evaluating the arguments of `process_setup`, before the counter is
incremented, before the checkpoint test and before any job. -/
def screen_sequences (fs post : FS) (count : Nat) (alignFile : String) :
    Except String StageOut :=
  match screen_suffix alignFile with
  | none => .error "UnboundLocalError: local variable referenced before assignment"
  | some outputExt =>
    let (outputFile, count) := process_setup count alignFile outputExt
    if output_files_exist fs (some outputFile) none = some true then
      .ok (outputFile, count, [])
    else
      let logFile := getProcessLogFile count "screen.seqs" true
      match process_cleanup post (some outputFile) none with
      | .ok _ => .ok (outputFile, count, [.runJob "screen.seqs" logFile])
      | .error e => .error e

/-- Embeds `rDnaPipeline.find_chimeras` (external job `chimera.uchime`). -/
def find_chimeras (fs post : FS) (count : Nat) (alignFile : String) :
    Except String StageOut :=
  let (outputFile, count) := process_setup count alignFile "uchime.accnos"
  if output_files_exist fs (some outputFile) none = some true then
    .ok (outputFile, count, [])
  else
    let logFile := getProcessLogFile count "chimera.uchime" true
    match process_cleanup post (some outputFile) none with
    | .ok _ => .ok (outputFile, count, [.runJob "chimera.uchime" logFile])
    | .error e => .error e

/-- Embeds `rDnaPipeline.remove_sequences` (external job `remove.seqs`).
`idFile` only feeds the job's argument map. -/
def remove_sequences (fs post : FS) (count : Nat) (alignFile idFile : String) :
    Except String StageOut :=
  let (outputFile, count) := process_setup count alignFile "pick.align"
  if output_files_exist fs (some outputFile) none = some true then
    .ok (outputFile, count, [])
  else
    let logFile := getProcessLogFile count "remove.seqs" true
    match process_cleanup post (some outputFile) none with
    | .ok _ => .ok (outputFile, count, [.runJob "remove.seqs" logFile])
    | .error e => .error e

/-- Embeds `rDnaPipeline.filter_sequences` (external job `filter.seqs`). -/
def filter_sequences (fs post : FS) (count : Nat) (alignFile : String) :
    Except String StageOut :=
  let (outputFile, count) := process_setup count alignFile "filter.fasta"
  if output_files_exist fs (some outputFile) none = some true then
    .ok (outputFile, count, [])
  else
    let logFile := getProcessLogFile count "filter.seqs" true
    match process_cleanup post (some outputFile) none with
    | .ok _ => .ok (outputFile, count, [.runJob "filter.seqs" logFile])
    | .error e => .error e

/-- The output-suffix selection at the top of
`rDnaPipeline.unique_sequences`. -/
def unique_suffixes (alignFile : String) : Option (List String) :=
  if strEndsWith alignFile ".align" then some ["unique.align", "names"]
  else if strEndsWith alignFile ".fasta" then some ["unique.fasta", "names"]
  else none

/-- Embeds `rDnaPipeline.unique_sequences` (external job `unique.seqs`). -/
def unique_sequences (fs post : FS) (count : Nat) (alignFile : String) :
    Except String StageListOut :=
  match unique_suffixes alignFile with
  | none => .error "UnboundLocalError: local variable referenced before assignment"
  | some outputSuffixes =>
    let (outputList, count) := process_setup_list count alignFile outputSuffixes
    if output_files_exist fs none (some outputList) = some true then
      .ok (outputList, count, [])
    else
      let logFile := getProcessLogFile count "unique.seqs" true
      match process_cleanup post none (some outputList) with
      | .ok _ => .ok (outputList, count, [.runJob "unique.seqs" logFile])
      | .error e => .error e

/-- The output-suffix selection at the top of
`rDnaPipeline.precluster_sequences`. -/
def precluster_suffixes (alignFile : String) : Option (List String) :=
  if strEndsWith alignFile ".align" then some ["precluster.align", "precluster.names"]
  else if strEndsWith alignFile ".fasta" then some ["precluster.fasta", "precluster.names"]
  else none

/-- Embeds `rDnaPipeline.precluster_sequences` (external job
`pre.cluster`); `nameFile` only feeds the job's argument map. -/
def precluster_sequences (fs post : FS) (count : Nat)
    (alignFile nameFile : String) : Except String StageListOut :=
  match precluster_suffixes alignFile with
  | none => .error "UnboundLocalError: local variable referenced before assignment"
  | some outputSuffixes =>
    let (outputList, count) := process_setup_list count alignFile outputSuffixes
    if output_files_exist fs none (some outputList) = some true then
      .ok (outputList, count, [])
    else
      let logFile := getProcessLogFile count "pre.cluster" true
      match process_cleanup post none (some outputList) with
      | .ok _ => .ok (outputList, count, [.runJob "pre.cluster" logFile])
      | .error e => .error e

/-- Embeds `rDnaPipeline.calculate_distance_matrix` (external job
`dist.seqs`). -/
def calculate_distance_matrix (fs post : FS) (count : Nat)
    (alignFile : String) : Except String StageOut :=
  let (outputFile, count) := process_setup count alignFile "phylip.dist"
  if output_files_exist fs (some outputFile) none = some true then
    .ok (outputFile, count, [])
  else
    let logFile := getProcessLogFile count "dist.seqs" true
    match process_cleanup post (some outputFile) none with
    | .ok _ => .ok (outputFile, count, [.runJob "dist.seqs" logFile])
    | .error e => .error e

/-- The output-suffix selection at the top of
`rDnaPipeline.cluster_sequences`, keyed on the configured clustering
method. -/
def cluster_suffix (clusteringMethod : String) : Option String :=
  if clusteringMethod = "nearest" then some "nn.list"
  else if clusteringMethod = "average" then some "an.list"
  else if clusteringMethod = "furthest" then some "fn.list"
  else none

/-- The resolved output name of the clustering stage, as a function of
the distance-matrix artifact and the configured clustering method. -/
def cluster_output_name (distanceMatrix clusteringMethod : String) :
    Option String :=
  (cluster_suffix clusteringMethod).map (get_output_name distanceMatrix)

/-- Embeds `rDnaPipeline.cluster_sequences` (external job `cluster`);
`nameFile` only feeds the job's argument map. -/
def cluster_sequences (fs post : FS) (count : Nat)
    (clusteringMethod distanceMatrix nameFile : String) :
    Except String StageOut :=
  match cluster_suffix clusteringMethod with
  | none => .error "UnboundLocalError: local variable referenced before assignment"
  | some outputSuffix =>
    let (outputFile, count) := process_setup count distanceMatrix outputSuffix
    if output_files_exist fs (some outputFile) none = some true then
      .ok (outputFile, count, [])
    else
      let logFile := getProcessLogFile count "cluster" true
      match process_cleanup post (some outputFile) none with
      | .ok _ => .ok (outputFile, count, [.runJob "cluster" logFile])
      | .error e => .error e

/-- Embeds `rDnaPipeline.separate_cluster_sequences` (internal
`ClusterSeparator`). -/
def separate_cluster_sequences (fs post : FS) (count : Nat)
    (listFile : String) : Except String StageOut :=
  let (outputFile, count) := process_setup count listFile "list.clusters"
  if output_files_exist fs (some outputFile) none = some true then
    .ok (outputFile, count, [])
  else
    match process_cleanup post (some outputFile) none with
    | .ok _ => .ok (outputFile, count, [.writeFile outputFile])
    | .error e => .error e

/-- Embeds `rDnaPipeline.generate_consensus_sequences` (internal
`generate_consensus_files`). -/
def generate_consensus_sequences (fs post : FS) (count : Nat)
    (cluster_list_file : String) : Except String StageOut :=
  let (output_file, count) := process_setup count cluster_list_file "consensus"
  if output_files_exist fs (some output_file) none = some true then
    .ok (output_file, count, [])
  else
    match process_cleanup post (some output_file) none with
    | .ok _ => .ok (output_file, count, [.writeFile output_file])
    | .error e => .error e

/-- Modelled from the spec: `write_dummy_file` (pbrdna.utils, not under
src/) — "writes a sentinel completion marker", modelled as writing a
non-empty file at the given path. -/
def write_dummy_file (fs : FS) (p : String) : FS :=
  setFile fs p 1

/-- Embeds `rDnaPipeline.cleanup_uchime_output`.  Unlike every other
stage, it has no `output_files_exist` checkpoint: it always removes the
`_formatted` scratch files from the working directory and rewrites its
sentinel output file. -/
def cleanup_uchime_output (fs : FS) (count : Nat) (screenedFile : String) :
    Except String StageOut :=
  let (outputFile, count) := process_setup count screenedFile "uchime.cleanup"
  let scratch := (fs.map Prod.fst).filter (fun f => strEndsWith f "_formatted")
  let fs1 := fs.filter (fun e => !(strEndsWith e.1 "_formatted"))
  let fs2 := write_dummy_file fs1 outputFile
  match process_cleanup fs2 (some outputFile) none with
  | .ok _ => .ok (outputFile, count,
      scratch.map Effect.removeFile ++ [.writeFile outputFile])
  | .error e => .error e

/-- Embeds `rDnaPipeline.cleanup_consensus_folder` (internal
`clean_consensus_outputs`). -/
def cleanup_consensus_folder (fs post : FS) (count : Nat)
    (consensusFile : String) : Except String StageOut :=
  let (outputFile, count) := process_setup count consensusFile "consensus.cleanup"
  if output_files_exist fs (some outputFile) none = some true then
    .ok (outputFile, count, [])
  else
    match process_cleanup post (some outputFile) none with
    | .ok _ => .ok (outputFile, count, [.writeFile outputFile])
    | .error e => .error e

/-- Embeds `rDnaPipeline.select_final_sequences` (internal
`select_consensus_files`). -/
def select_final_sequences (fs post : FS) (count : Nat)
    (consensusFile : String) : Except String StageOut :=
  let (outputFile, count) := process_setup count consensusFile "consensus.selected"
  if output_files_exist fs (some outputFile) none = some true then
    .ok (outputFile, count, [])
  else
    match process_cleanup post (some outputFile) none with
    | .ok _ => .ok (outputFile, count, [.writeFile outputFile])
    | .error e => .error e

/-- Embeds `rDnaPipeline.output_final_sequences` (internal
`copy_fasta_list`). -/
def output_final_sequences (fs post : FS) (count : Nat)
    (finalSequenceList : String) : Except String StageOut :=
  let (outputFile, count) := process_setup count finalSequenceList "fasta"
  if output_files_exist fs (some outputFile) none = some true then
    .ok (outputFile, count, [])
  else
    match process_cleanup post (some outputFile) none with
    | .ok _ => .ok (outputFile, count, [.writeFile outputFile])
    | .error e => .error e

/-- Embeds the chimera branch of `rDnaPipeline.run` (the lines following
`find_chimeras` and `cleanup_uchime_output`): when the chimera-ID
artifact exists non-empty, `remove_sequences` supplies the next-stage
input; otherwise the screened artifact passes through unchanged, with no
job run and no error. -/
def chimera_branch (fs post : FS) (count : Nat)
    (screenedFile chimera_ids : String) : Except String StageOut :=
  if file_exists fs chimera_ids then
    remove_sequences fs post count screenedFile chimera_ids
  else
    .ok (screenedFile, count, [])

/-- Embeds the input classification of `rDnaPipeline.validate_settings`:
the data type is decided by the terminal extension alone; an
unrecognized extension raises `TypeError`. -/
def validate_settings_data_type (input_file : String) : Except String String :=
  let ext := (split_root_from_ext input_file).2
  if ext = ".bas.h5" ∨ ext = ".fofn" then .ok "bash5"
  else if ext = ".fq" ∨ ext = ".fastq" then .ok "fastq"
  else if ext = ".fa" ∨ ext = ".fsa" ∨ ext = ".fasta" then .ok "fasta"
  else .error "TypeError: Sequence file must be a bas.h5 file, a fasta file, or a fofn of multiple such files"

/-- Embeds the startup ordering of `rDnaPipeline.__init__` and
`rDnaPipeline.run`: `validate_settings` runs during construction, so the
stage sequence `k` is only ever entered with a successfully classified
data type. -/
def startup_then (input_file : String)
    (k : String → Except String StageOut) : Except String StageOut :=
  match validate_settings_data_type input_file with
  | .ok data_type => k data_type
  | .error e => .error e

/-- Sequencing of two stages in `rDnaPipeline.run`: a failing stage
propagates its exception and the continuation never runs; a successful
stage hands its output and counter to the next one, accumulating effect
traces. -/
def stage_seq (r : Except String StageOut)
    (k : String → Nat → Except String StageOut) : Except String StageOut :=
  match r with
  | .ok (f, c, eff) =>
    match k f c with
    | .ok (g, c2, eff2) => .ok (g, c2, eff ++ eff2)
    | .error e => .error e
  | .error e => .error e

/-! ## `pbrdna/io/extract_ccs.py` — `output_fastq`

A ZMW is modelled by whether it carries a CCS read, the length of the
CCS basecalls, and the minimum of its HQRegionSNR channel values (the
code only ever uses `min(zmw.zmwMetric("HQRegionSNR"))`).  Floating
point arithmetic is modelled over `ℚ`; Python's `round` (half away from
zero) agrees with Mathlib's `round` (half towards `+∞`) on the
non-negative values arising here. -/

/-- One ZMW of a `BasH5Reader`. -/
structure ZMW where
  hasCcs : Bool
  basecallsLen : Nat
  snr : ℚ
deriving DecidableEq

/-- A reader is its stream of ZMWs. -/
abbrev Reader := List ZMW

/-- The per-reader counting loop of `output_fastq`: returns
`(ccs_count, pass_count)`.  A ZMW without a CCS read is skipped; one
with short basecalls or low SNR counts towards `ccs_count` only. -/
def reader_counts (min_length : Nat) (min_snr : ℚ) : Reader → Nat × Nat
  | [] => (0, 0)
  | z :: rest =>
    let rc := reader_counts min_length min_snr rest
    if z.hasCcs = false then rc
    else if z.basecallsLen < min_length then (rc.1 + 1, rc.2)
    else if z.snr < min_snr then (rc.1 + 1, rc.2)
    else (rc.1 + 1, rc.2 + 1)

/-- Embeds Python 2's built-in `round` over `ℚ`: rounds half away from
zero (which agrees with Mathlib's `round` on non-negative arguments). -/
def py2round (q : ℚ) : Int :=
  if q < 0 then -(Rat.floor (-q + 1 / 2)) else Rat.floor (q + 1 / 2)

/-- The pass-rate computation `round(100.0*pass_count/ccs_count)` of
`output_fastq`; a zero denominator raises `ZeroDivisionError` in
Python. -/
def pass_percentage (pass_count ccs_count : Nat) : Except String Int :=
  if ccs_count = 0 then .error "ZeroDivisionError: float division by zero"
  else .ok (py2round ((100 * (pass_count : ℚ)) / (ccs_count : ℚ)))

/-- The reader loop of `output_fastq`, accumulating the running totals
and the per-reader `(ccs_count, pass_count, percentage)` log records. -/
def output_fastq_loop (min_length : Nat) (min_snr : ℚ) :
    List Reader → Nat → Nat → List (Nat × Nat × Int) →
    Except String (List (Nat × Nat × Int) × (Nat × Nat × Int))
  | [], ccs_total, pass_total, acc =>
    match pass_percentage pass_total ccs_total with
    | .ok pct => .ok (acc.reverse, (ccs_total, pass_total, pct))
    | .error e => .error e
  | r :: rest, ccs_total, pass_total, acc =>
    let rc := reader_counts min_length min_snr r
    match pass_percentage rc.2 rc.1 with
    | .ok pct =>
      output_fastq_loop min_length min_snr rest (ccs_total + rc.1)
        (pass_total + rc.2) ((rc.1, rc.2, pct) :: acc)
    | .error e => .error e

/-- Embeds `output_fastq`: per-reader log records and the aggregate
`(ccs_total, pass_total, percentage)` record, or the first uncaught
exception. -/
def output_fastq (readers : List Reader) (min_length : Nat) (min_snr : ℚ) :
    Except String (List (Nat × Nat × Int) × (Nat × Nat × Int)) :=
  output_fastq_loop min_length min_snr readers 0 0 []

/-- A reader with `pass` passing ZMWs (CCS, length 1, SNR 0) followed by
`ccs - pass` failing ZMWs (CCS, length 0), used to exercise
`output_fastq` against thresholds `min_length = 1`, `min_snr = 0`. -/
def mkReader (ccs pass : Nat) : Reader :=
  List.replicate pass ⟨true, 1, 0⟩ ++ List.replicate (ccs - pass) ⟨true, 0, 0⟩

/-! ## Helper lemmas -/

theorem ratFloor_eq (a : ℚ) : Rat.floor a = ⌊a⌋ := by
  rw [Rat.floor_def', Rat.floor_def]

theorem py2round_eq_round (q : ℚ) (h : 0 ≤ q) : py2round q = round q := by
  rw [py2round, if_neg (not_lt.2 h), ratFloor_eq, round_eq]

theorem string_append_cancel (a : String) {b c : String}
    (h : a ++ b = a ++ c) : b = c := by
  have hd := congrArg String.data h
  simp only [String.data_append] at hd
  exact String.ext (List.append_cancel_left hd)

theorem get_output_name_ne_empty (i s : String) : get_output_name i s ≠ "" := by
  intro h
  have hd := congrArg String.data h
  rw [get_output_name] at hd
  simp only [String.data_append] at hd
  rcases List.append_eq_nil.mp hd with ⟨h1, _⟩
  rcases List.append_eq_nil.mp h1 with ⟨_, h4⟩
  exact absurd h4 (by decide)

theorem output_files_exist_single (fs : FS) {f : String} (h : f ≠ "") :
    output_files_exist fs (some f) none = some (file_exists fs f) := by
  simp [output_files_exist, h]

theorem output_files_exist_list (fs : FS) {l : List String} (h : l ≠ []) :
    output_files_exist fs none (some l) = some (all_files_exist fs l) := by
  simp [output_files_exist, h]

theorem process_cleanup_single (fs : FS) {f : String} (h : f ≠ "") :
    process_cleanup fs (some f) none = check_output_file fs f := by
  simp [process_cleanup, h]

theorem process_cleanup_list (fs : FS) {l : List String} (h : l ≠ []) :
    process_cleanup fs none (some l) = check_output_files fs l := by
  simp [process_cleanup, h]

theorem check_output_files_ok_iff (fs : FS) (l : List String) :
    check_output_files fs l = .ok () ↔ ∀ p ∈ l, path_exists fs p = true := by
  induction l with
  | nil => simp [check_output_files]
  | cons f rest ih =>
    simp only [check_output_files, check_output_file]
    by_cases hp : path_exists fs f = true
    · simp [hp, ih]
    · simp [hp]

theorem reader_counts_fail (q : Nat) :
    reader_counts 1 0 (List.replicate q ⟨true, 0, 0⟩) = (q, 0) := by
  induction q with
  | zero => rfl
  | succ n ih => simp [List.replicate, reader_counts, ih]

theorem reader_counts_pass (p : Nat) (rest : Reader) :
    reader_counts 1 0 (List.replicate p ⟨true, 1, 0⟩ ++ rest) =
      ((reader_counts 1 0 rest).1 + p, (reader_counts 1 0 rest).2 + p) := by
  induction p with
  | zero => simp
  | succ n ih =>
    simp [List.replicate, reader_counts, ih, Prod.ext_iff]
    omega

theorem reader_counts_mkReader {ccs pass : Nat} (hp : pass ≤ ccs) :
    reader_counts 1 0 (mkReader ccs pass) = (ccs, pass) := by
  rw [mkReader, reader_counts_pass, reader_counts_fail]
  simp [Prod.ext_iff]
  omega

theorem output_fastq_mkReader {ccs pass : Nat} (hc : ccs ≠ 0) (hp : pass ≤ ccs) :
    output_fastq [mkReader ccs pass] 1 0 =
      .ok ([(ccs, pass, py2round ((100 * (pass : ℚ)) / (ccs : ℚ)))],
           (ccs, pass, py2round ((100 * (pass : ℚ)) / (ccs : ℚ)))) := by
  simp [output_fastq, output_fastq_loop, reader_counts_mkReader hp,
        pass_percentage, hc]

/-! ## Claims -/

/-- Claim C4 (code_bug): the spec requires that a reader (or an
aggregate) with zero CCS reads must not raise an unhandled division
error, but `output_fastq` computes `round(100.0*pass_count/ccs_count)`
unguarded, so a reader with zero CCS ZMWs — and likewise an empty
reader list, whose aggregate total is zero — raises
`ZeroDivisionError`. -/
theorem C4_zero_ccs_division_error :
    output_fastq [[]] 1 0 = .error "ZeroDivisionError: float division by zero" ∧
    output_fastq [] 1 0 = .error "ZeroDivisionError: float division by zero" :=
  ⟨rfl, rfl⟩

/-- Claim C8: for a reader with `ccs` CCS reads of which `pass` pass the
length and SNR filters, the logged percentage (per-file and aggregate)
is `round(100*pass/ccs)`, which differs from the exact ratio by at most
one half. -/
theorem C8_pass_rate (ccs pass : Nat) (hc : 0 < ccs) (hp : pass ≤ ccs) :
    output_fastq [mkReader ccs pass] 1 0 =
      .ok ([(ccs, pass, round ((100 * (pass : ℚ)) / (ccs : ℚ)))],
           (ccs, pass, round ((100 * (pass : ℚ)) / (ccs : ℚ)))) ∧
    |(100 * (pass : ℚ)) / (ccs : ℚ) - round ((100 * (pass : ℚ)) / (ccs : ℚ))| ≤ 1 / 2 := by
  have hq : (0:ℚ) ≤ (100 * (pass : ℚ)) / (ccs : ℚ) := by positivity
  have h := output_fastq_mkReader (Nat.pos_iff_ne_zero.mp hc) hp
  rw [py2round_eq_round _ hq] at h
  exact ⟨h, abs_sub_round _⟩

/-- Claim C8 witness: 100 CCS reads of which 37 pass log exactly 37%. -/
theorem C8_pass_rate_witness :
    output_fastq [mkReader 100 37] 1 0 = .ok ([(100, 37, 37)], (100, 37, 37)) := by
  have h := (C8_pass_rate 100 37 (by decide) (by decide)).1
  have hv : round ((100 * ((37:Nat) : ℚ)) / ((100:Nat) : ℚ)) = 37 := by
    have he : ((100 * ((37:Nat) : ℚ)) / ((100:Nat) : ℚ)) = 37 := by
      push_cast
      norm_num
    rw [he, round_eq, Int.floor_eq_iff]
    constructor <;> norm_num
  rw [hv] at h
  exact h

/-- Claim C1, amended: for every pipeline stage except
`cleanup_uchime_output`, if the stage's declared output files already
exist non-empty when the stage is invoked, the stage performs no
external job, no write and no delete (empty effect trace), and returns
the resolved output path(s) unchanged — regardless of the post-state
`post`, so the post-condition check is not consulted either.  The
conjuncts follow the pipeline order of `run`. -/
theorem C1_checkpoint_skip :
    (∀ fs post count hc input,
        file_exists fs (get_output_name input "fastq") = true →
        extract_raw_ccs fs post count hc input =
          .ok (get_output_name input "fastq", count + 1, [])) ∧
    (∀ fs post count input,
        file_exists fs (get_output_name input "filter.fastq") = true →
        filter_fastq fs post count input =
          .ok (get_output_name input "filter.fastq", count + 1, [])) ∧
    (∀ fs post count input,
        all_files_exist fs
          [get_output_name input "fasta", get_output_name input "qual"] = true →
        separate_fastq fs post count input =
          .ok ([get_output_name input "fasta", get_output_name input "qual"],
               count + 1, [])) ∧
    (∀ fs post count input,
        file_exists fs (get_output_name input "align") = true →
        align_sequences fs post count input =
          .ok (get_output_name input "align", count + 1, [])) ∧
    (∀ fs post count input,
        file_exists fs (get_output_name input "summary") = true →
        summarize_sequences fs post count input =
          .ok (get_output_name input "summary", count + 1, [])) ∧
    (∀ fs post count input ext,
        screen_suffix input = some ext →
        file_exists fs (get_output_name input ext) = true →
        screen_sequences fs post count input =
          .ok (get_output_name input ext, count + 1, [])) ∧
    (∀ fs post count input,
        file_exists fs (get_output_name input "uchime.accnos") = true →
        find_chimeras fs post count input =
          .ok (get_output_name input "uchime.accnos", count + 1, [])) ∧
    (∀ fs post count input ids,
        file_exists fs (get_output_name input "pick.align") = true →
        remove_sequences fs post count input ids =
          .ok (get_output_name input "pick.align", count + 1, [])) ∧
    (∀ fs post count input,
        file_exists fs (get_output_name input "filter.fasta") = true →
        filter_sequences fs post count input =
          .ok (get_output_name input "filter.fasta", count + 1, [])) ∧
    (∀ fs post count input sl,
        unique_suffixes input = some sl →
        all_files_exist fs (sl.map (get_output_name input)) = true →
        unique_sequences fs post count input =
          .ok (sl.map (get_output_name input), count + 1, [])) ∧
    (∀ fs post count input nameFile sl,
        precluster_suffixes input = some sl →
        all_files_exist fs (sl.map (get_output_name input)) = true →
        precluster_sequences fs post count input nameFile =
          .ok (sl.map (get_output_name input), count + 1, [])) ∧
    (∀ fs post count input,
        file_exists fs (get_output_name input "phylip.dist") = true →
        calculate_distance_matrix fs post count input =
          .ok (get_output_name input "phylip.dist", count + 1, [])) ∧
    (∀ fs post count m matrix nameFile s,
        cluster_suffix m = some s →
        file_exists fs (get_output_name matrix s) = true →
        cluster_sequences fs post count m matrix nameFile =
          .ok (get_output_name matrix s, count + 1, [])) ∧
    (∀ fs post count input,
        file_exists fs (get_output_name input "list.clusters") = true →
        separate_cluster_sequences fs post count input =
          .ok (get_output_name input "list.clusters", count + 1, [])) ∧
    (∀ fs post count input,
        file_exists fs (get_output_name input "consensus") = true →
        generate_consensus_sequences fs post count input =
          .ok (get_output_name input "consensus", count + 1, [])) ∧
    (∀ fs post count input,
        file_exists fs (get_output_name input "consensus.cleanup") = true →
        cleanup_consensus_folder fs post count input =
          .ok (get_output_name input "consensus.cleanup", count + 1, [])) ∧
    (∀ fs post count input,
        file_exists fs (get_output_name input "consensus.selected") = true →
        select_final_sequences fs post count input =
          .ok (get_output_name input "consensus.selected", count + 1, [])) ∧
    (∀ fs post count input,
        file_exists fs (get_output_name input "fasta") = true →
        output_final_sequences fs post count input =
          .ok (get_output_name input "fasta", count + 1, [])) := by
  refine ⟨?_, ?_, ?_, ?_, ?_, ?_, ?_, ?_, ?_, ?_, ?_, ?_, ?_, ?_, ?_, ?_, ?_, ?_⟩
  · intro fs post count hc input h
    simp [extract_raw_ccs, process_setup, output_files_exist,
          get_output_name_ne_empty, h]
  · intro fs post count input h
    simp [filter_fastq, process_setup, output_files_exist,
          get_output_name_ne_empty, h]
  · intro fs post count input h
    simp [separate_fastq, process_setup_list, output_files_exist, h]
  · intro fs post count input h
    simp [align_sequences, process_setup, output_files_exist,
          get_output_name_ne_empty, h]
  · intro fs post count input h
    simp [summarize_sequences, process_setup, output_files_exist,
          get_output_name_ne_empty, h]
  · intro fs post count input ext hsuf h
    simp [screen_sequences, hsuf, process_setup, output_files_exist,
          get_output_name_ne_empty, h]
  · intro fs post count input h
    simp [find_chimeras, process_setup, output_files_exist,
          get_output_name_ne_empty, h]
  · intro fs post count input ids h
    simp [remove_sequences, process_setup, output_files_exist,
          get_output_name_ne_empty, h]
  · intro fs post count input h
    simp [filter_sequences, process_setup, output_files_exist,
          get_output_name_ne_empty, h]
  · intro fs post count input sl hsuf h
    have hne : sl ≠ [] := by
      unfold unique_suffixes at hsuf
      split at hsuf
      · injection hsuf with h2
        subst h2
        simp
      · split at hsuf
        · injection hsuf with h2
          subst h2
          simp
        · exact Option.noConfusion hsuf
    simp [unique_sequences, hsuf, process_setup_list, output_files_exist,
          List.map_eq_nil_iff, hne, h]
  · intro fs post count input nameFile sl hsuf h
    have hne : sl ≠ [] := by
      unfold precluster_suffixes at hsuf
      split at hsuf
      · injection hsuf with h2
        subst h2
        simp
      · split at hsuf
        · injection hsuf with h2
          subst h2
          simp
        · exact Option.noConfusion hsuf
    simp [precluster_sequences, hsuf, process_setup_list, output_files_exist,
          List.map_eq_nil_iff, hne, h]
  · intro fs post count input h
    simp [calculate_distance_matrix, process_setup, output_files_exist,
          get_output_name_ne_empty, h]
  · intro fs post count m matrix nameFile s hsuf h
    simp [cluster_sequences, hsuf, process_setup, output_files_exist,
          get_output_name_ne_empty, h]
  · intro fs post count input h
    simp [separate_cluster_sequences, process_setup, output_files_exist,
          get_output_name_ne_empty, h]
  · intro fs post count input h
    simp [generate_consensus_sequences, process_setup, output_files_exist,
          get_output_name_ne_empty, h]
  · intro fs post count input h
    simp [cleanup_consensus_folder, process_setup, output_files_exist,
          get_output_name_ne_empty, h]
  · intro fs post count input h
    simp [select_final_sequences, process_setup, output_files_exist,
          get_output_name_ne_empty, h]
  · intro fs post count input h
    simp [output_final_sequences, process_setup, output_files_exist,
          get_output_name_ne_empty, h]

/-- Claim C1 witness: a run directory already holding
`sample.filter.fastq` makes the quality-filter stage skip with an empty
effect trace. -/
theorem C1_checkpoint_skip_witness :
    filter_fastq [("sample.filter.fastq", 3)] [] 0 "sample.fastq" =
      .ok ("sample.filter.fastq", 1, []) := by
  have h := C1_checkpoint_skip.2.1 [("sample.filter.fastq", 3)] [] 0
    "sample.fastq" (by decide)
  exact h

/-- Claim C1 counterexample: `cleanup_uchime_output` re-executes even
when its declared output already exists non-empty — it removes the
`_formatted` scratch file and rewrites its sentinel output, so its
effect trace is not empty. -/
theorem C1_uchime_cleanup_counterexample :
    file_exists
        [("sample.good.align", 4), ("sample.good.uchime.cleanup", 1),
         ("scratch_formatted", 2)]
        (get_output_name "sample.good.align" "uchime.cleanup") = true ∧
    cleanup_uchime_output
        [("sample.good.align", 4), ("sample.good.uchime.cleanup", 1),
         ("scratch_formatted", 2)]
        0 "sample.good.align" =
      .ok ("sample.good.uchime.cleanup", 1,
           [.removeFile "scratch_formatted",
            .writeFile "sample.good.uchime.cleanup"]) ∧
    ([.removeFile "scratch_formatted",
      .writeFile "sample.good.uchime.cleanup"] : List Effect) ≠ [] :=
  ⟨by decide, rfl, by decide⟩

/-- Claim C2: after a stage executes, each declared output path is
checked with `os.path.exists`; a missing output is an `IOError` with a
"not found" message and the composed run stops there (the continuation
never contributes), with no retry; when every declared output exists the
check returns normally. -/
theorem C2_output_validation (fs post : FS) (f : String) (outs : List String)
    (count : Nat) (input : String) :
    (check_output_file fs f = .ok () ↔ path_exists fs f = true) ∧
    (path_exists fs f = false →
      check_output_file fs f =
        .error ("Expected output \"" ++ f ++ "\" not found!")) ∧
    (outs ≠ [] →
      (process_cleanup fs none (some outs) = .ok () ↔
        ∀ p ∈ outs, path_exists fs p = true)) ∧
    (f ≠ "" → process_cleanup fs (some f) none = check_output_file fs f) ∧
    (output_files_exist fs (some (get_output_name input "align")) none ≠ some true →
      path_exists post (get_output_name input "align") = false →
      ∀ k, stage_seq (align_sequences fs post count input) k =
        .error ("Expected output \"" ++ get_output_name input "align" ++
                "\" not found!")) := by
  refine ⟨?_, ?_, ?_, ?_, ?_⟩
  · by_cases hp : path_exists fs f = true <;> simp [check_output_file, hp]
  · intro hp
    simp [check_output_file, hp]
  · intro hne
    rw [process_cleanup_list fs hne]
    exact check_output_files_ok_iff fs outs
  · intro hf
    exact process_cleanup_single fs hf
  · intro hskip hpost k
    simp [stage_seq, align_sequences, process_setup, hskip, process_cleanup,
          get_output_name_ne_empty, check_output_file, hpost]

/-- Claim C2 witness: a stage whose job leaves the declared output
absent fails with the "not found" `IOError`, and the continuation stage
never runs. -/
theorem C2_output_validation_witness :
    stage_seq (align_sequences [] [] 0 "sample.fasta")
        (fun g c => .ok (g, c, [])) =
      .error "Expected output \"sample.align\" not found!" := by
  have h := (C2_output_validation [] [] "x" ["y"] 0 "sample.fasta").2.2.2.2
    (by decide) (by decide) (fun g c => .ok (g, c, []))
  exact h

/-- Claim C3: in the chimera branch of `run`, a non-empty chimera-ID
artifact routes the screened artifact through `remove_sequences`, whose
resolved `pick.align` artifact becomes the next-stage input; a missing
or empty chimera-ID artifact passes the screened artifact through
unchanged, with no job run and no error raised. -/
theorem C3_chimera_branch (fs post : FS) (count : Nat)
    (screened ids : String) :
    (file_exists fs ids = false →
      chimera_branch fs post count screened ids = .ok (screened, count, [])) ∧
    (file_exists fs ids = true →
      chimera_branch fs post count screened ids =
        remove_sequences fs post count screened ids) ∧
    (file_exists fs ids = true →
      ∀ out c eff,
        chimera_branch fs post count screened ids = .ok (out, c, eff) →
        out = get_output_name screened "pick.align") := by
  refine ⟨?_, ?_, ?_⟩
  · intro h
    simp [chimera_branch, h]
  · intro h
    simp [chimera_branch, h]
  · intro h out c eff hok
    rw [chimera_branch, if_pos (by simp [h])] at hok
    simp only [remove_sequences, process_setup] at hok
    split at hok
    · exact (congrArg Prod.fst ((Except.ok.injEq _ _).mp hok)).symm
    · split at hok
      · exact (congrArg Prod.fst ((Except.ok.injEq _ _).mp hok)).symm
      · exact Except.noConfusion hok

/-- Claim C3 witness: with the chimera-ID artifact absent the screened
artifact passes through unchanged; with it present non-empty the
`pick.align` artifact becomes the next-stage input. -/
theorem C3_chimera_branch_witness :
    chimera_branch [] [] 5 "sample.good.align" "sample.good.uchime.accnos" =
      .ok ("sample.good.align", 5, []) ∧
    chimera_branch
        [("sample.good.uchime.accnos", 2), ("sample.good.pick.align", 7)] [] 5
        "sample.good.align" "sample.good.uchime.accnos" =
      .ok ("sample.good.pick.align", 6, []) := by
  constructor
  · exact (C3_chimera_branch [] [] 5 "sample.good.align"
      "sample.good.uchime.accnos").1 (by decide)
  · have h := (C3_chimera_branch
      [("sample.good.uchime.accnos", 2), ("sample.good.pick.align", 7)] [] 5
      "sample.good.align" "sample.good.uchime.accnos").2.1 (by decide)
    rw [h]
    rfl

/-- Claim C5, amended: the per-stage log file lives in `log/` and is
named `process<NN>.mothur.<stageName>.logfile` for Mothur (external)
jobs — only non-Mothur processes get the spec's
`process<NN>.<stageName>.logfile` form — and the process counter grows
by exactly one at every stage preparation. -/
theorem C5_log_names_and_counter (count : Nat) (name input suffix : String) :
    getProcessLogFile count name true =
      "log/process" ++ fmt2 count ++ ".mothur." ++ name ++ ".logfile" ∧
    getProcessLogFile count name false =
      "log/process" ++ fmt2 count ++ "." ++ name ++ ".logfile" ∧
    (process_setup count input suffix).2 = count + 1 ∧
    (process_setup_list count input [suffix]).2 = count + 1 ∧
    (∀ fs post out c eff,
      align_sequences fs post count input = .ok (out, c, eff) →
      c = count + 1) := by
  refine ⟨rfl, rfl, rfl, rfl, ?_⟩
  intro fs post out c eff hok
  simp only [align_sequences, process_setup] at hok
  split at hok
  · exact (congrArg (fun t => t.2.1) ((Except.ok.injEq _ _).mp hok)).symm
  · split at hok
    · exact (congrArg (fun t => t.2.1) ((Except.ok.injEq _ _).mp hok)).symm
    · exact Except.noConfusion hok

/-- Claim C5 witness: the Mothur job log name at counter 3, and the
counter stepping from 3 to 4 on stage preparation and in a stage
result. -/
theorem C5_log_names_and_counter_witness :
    getProcessLogFile 3 "cluster" true = "log/process03.mothur.cluster.logfile" ∧
    (process_setup 3 "sample.fasta" "align").2 = 4 ∧
    (4 : Nat) = 3 + 1 := by
  have h := C5_log_names_and_counter 3 "cluster" "sample.fasta" "align"
  refine ⟨h.1.trans (by decide), h.2.2.1, ?_⟩
  exact h.2.2.2.2 [("sample.align", 1)] [] "sample.align" 4 [] (by rfl)

/-- Claim C5 counterexample: for an external (Mothur) job the assigned
log file name is not of the form `process<NN>.<stageName>.logfile` —
the code inserts an extra `mothur.` component. -/
theorem C5_mothur_name_counterexample :
    getProcessLogFile 1 "align.seqs" true ≠ "log/process01.align.seqs.logfile" ∧
    getProcessLogFile 1 "align.seqs" true =
      "log/process01.mothur.align.seqs.logfile" :=
  ⟨by decide, by decide⟩

/-- Claim C6: startup classification by terminal extension — `.bas.h5`
or `.fofn` select the raw-instrument branch, `.fq`/`.fastq` the
pre-extracted-reads branch, `.fa`/`.fsa`/`.fasta` the
pre-aligned-sequences branch, and any other extension raises
`TypeError` during construction, so no stage sequence ever starts. -/
theorem C6_input_classification (f : String) :
    ((split_root_from_ext f).2 = ".bas.h5" ∨ (split_root_from_ext f).2 = ".fofn" →
      validate_settings_data_type f = .ok "bash5") ∧
    ((split_root_from_ext f).2 = ".fq" ∨ (split_root_from_ext f).2 = ".fastq" →
      validate_settings_data_type f = .ok "fastq") ∧
    ((split_root_from_ext f).2 = ".fa" ∨ (split_root_from_ext f).2 = ".fsa" ∨
        (split_root_from_ext f).2 = ".fasta" →
      validate_settings_data_type f = .ok "fasta") ∧
    ((split_root_from_ext f).2 ∉
        [".bas.h5", ".fofn", ".fq", ".fastq", ".fa", ".fsa", ".fasta"] →
      ∀ k, startup_then f k =
        .error "TypeError: Sequence file must be a bas.h5 file, a fasta file, or a fofn of multiple such files") := by
  refine ⟨?_, ?_, ?_, ?_⟩
  · intro h
    simp only [validate_settings_data_type]
    rcases h with h | h <;> simp [h]
  · intro h
    simp only [validate_settings_data_type]
    rcases h with h | h <;> simp [h]
  · intro h
    simp only [validate_settings_data_type]
    rcases h with h | h | h <;> simp [h]
  · intro h k
    simp only [List.mem_cons, List.mem_singleton, not_or] at h
    obtain ⟨h1, h2, h3, h4, h5, h6, h7⟩ := h
    simp [startup_then, validate_settings_data_type, h1, h2, h3, h4, h5, h6, h7]

/-- Claim C6 witness: one concrete input per branch, and a `.txt` input
rejected before any stage. -/
theorem C6_input_classification_witness :
    validate_settings_data_type "reads.fofn" = .ok "bash5" ∧
    validate_settings_data_type "reads.fastq" = .ok "fastq" ∧
    validate_settings_data_type "reads.fasta" = .ok "fasta" ∧
    startup_then "reads.txt" (fun dt => .ok (dt, 0, [])) =
      .error "TypeError: Sequence file must be a bas.h5 file, a fasta file, or a fofn of multiple such files" := by
  refine ⟨?_, ?_, ?_, ?_⟩
  · exact (C6_input_classification "reads.fofn").1 (by decide)
  · exact (C6_input_classification "reads.fastq").2.1 (by decide)
  · exact (C6_input_classification "reads.fasta").2.2.1 (by decide)
  · exact (C6_input_classification "reads.txt").2.2.2 (by decide)
      (fun dt => .ok (dt, 0, []))

/-- Claim C7: the clustering stage's output extension is a function of
the configured clustering method alone — nearest ↦ `nn.list`,
average ↦ `an.list`, furthest ↦ `fn.list` — appended to the
distance-matrix artifact's base name; distinct methods resolve to
distinct output names, and a successful stage returns exactly the name
resolved for its method. -/
theorem C7_cluster_method_extension (matrix nameFile : String) (fs post : FS)
    (count : Nat) :
    cluster_output_name matrix "nearest" =
      some (get_output_name matrix "nn.list") ∧
    cluster_output_name matrix "average" =
      some (get_output_name matrix "an.list") ∧
    cluster_output_name matrix "furthest" =
      some (get_output_name matrix "fn.list") ∧
    cluster_output_name matrix "nearest" ≠ cluster_output_name matrix "average" ∧
    cluster_output_name matrix "nearest" ≠ cluster_output_name matrix "furthest" ∧
    cluster_output_name matrix "average" ≠ cluster_output_name matrix "furthest" ∧
    (∀ m out c eff,
      cluster_sequences fs post count m matrix nameFile = .ok (out, c, eff) →
      cluster_output_name matrix m = some out) := by
  refine ⟨rfl, rfl, rfl, ?_, ?_, ?_, ?_⟩
  · intro h
    have he : get_output_name matrix "nn.list" = get_output_name matrix "an.list" := by
      simpa [cluster_output_name, cluster_suffix] using h
    rw [get_output_name, get_output_name] at he
    exact absurd (string_append_cancel _ he) (by decide)
  · intro h
    have he : get_output_name matrix "nn.list" = get_output_name matrix "fn.list" := by
      simpa [cluster_output_name, cluster_suffix] using h
    rw [get_output_name, get_output_name] at he
    exact absurd (string_append_cancel _ he) (by decide)
  · intro h
    have he : get_output_name matrix "an.list" = get_output_name matrix "fn.list" := by
      simpa [cluster_output_name, cluster_suffix] using h
    rw [get_output_name, get_output_name] at he
    exact absurd (string_append_cancel _ he) (by decide)
  · intro m out c eff hok
    rw [cluster_sequences] at hok
    rcases hs : cluster_suffix m with _ | s
    · rw [hs] at hok
      exact Except.noConfusion hok
    · rw [hs] at hok
      simp only [process_setup] at hok
      rw [cluster_output_name, hs]
      split at hok
      · exact congrArg some (congrArg Prod.fst ((Except.ok.injEq _ _).mp hok))
      · split at hok
        · exact congrArg some (congrArg Prod.fst ((Except.ok.injEq _ _).mp hok))
        · exact Except.noConfusion hok

/-- Claim C7 witness: resolved names for a concrete distance matrix, and
a successful `average` run reporting the `an.list` artifact. -/
theorem C7_cluster_method_extension_witness :
    cluster_output_name "sample.phylip.dist" "nearest" =
      some "sample.phylip.nn.list" ∧
    cluster_output_name "sample.phylip.dist" "average" =
      some "sample.phylip.an.list" := by
  have h := C7_cluster_method_extension "sample.phylip.dist" "sample.names"
    [("sample.phylip.an.list", 1)] [] 0
  refine ⟨h.1.trans (by decide), ?_⟩
  exact h.2.2.2.2.2.2 "average" "sample.phylip.an.list" 1 [] (by rfl)

/-- Claim C9: for an input ending in neither `.align` nor `.fasta`, the
suffix selection of `screen_sequences`, `unique_sequences` and
`precluster_sequences` leaves the local suffix variable unassigned and
the stage fails with the unbound-local error immediately — for every
filesystem state, hence before the checkpoint test and before any
external job; likewise `cluster_sequences` for a clustering method
outside nearest/average/furthest. -/
theorem C9_suffix_selection_unbound_local (fs post : FS) (count : Nat)
    (f nameFile m d : String) :
    (strEndsWith f ".align" = false → strEndsWith f ".fasta" = false →
      screen_sequences fs post count f =
        .error "UnboundLocalError: local variable referenced before assignment" ∧
      unique_sequences fs post count f =
        .error "UnboundLocalError: local variable referenced before assignment" ∧
      precluster_sequences fs post count f nameFile =
        .error "UnboundLocalError: local variable referenced before assignment") ∧
    (m ≠ "nearest" → m ≠ "average" → m ≠ "furthest" →
      cluster_sequences fs post count m d nameFile =
        .error "UnboundLocalError: local variable referenced before assignment") := by
  constructor
  · intro h1 h2
    refine ⟨?_, ?_, ?_⟩ <;>
      simp [screen_sequences, unique_sequences, precluster_sequences,
            screen_suffix, unique_suffixes, precluster_suffixes, h1, h2]
  · intro h1 h2 h3
    simp [cluster_sequences, cluster_suffix, h1, h2, h3]

/-- Claim C9 witness: a `.txt` input and a `median` clustering method
both fail with the unbound-local error on an arbitrary filesystem. -/
theorem C9_suffix_selection_unbound_local_witness :
    screen_sequences [("sample.good.align", 9)] [] 0 "sample.txt" =
      .error "UnboundLocalError: local variable referenced before assignment" ∧
    cluster_sequences [("sample.nn.list", 9)] [] 0 "median"
        "sample.phylip.dist" "sample.names" =
      .error "UnboundLocalError: local variable referenced before assignment" := by
  constructor
  · exact ((C9_suffix_selection_unbound_local [("sample.good.align", 9)] [] 0
      "sample.txt" "sample.names" "median" "sample.phylip.dist").1
      (by decide) (by decide)).1
  · exact (C9_suffix_selection_unbound_local [("sample.nn.list", 9)] [] 0
      "sample.txt" "sample.names" "median" "sample.phylip.dist").2
      (by decide) (by decide) (by decide)

/-- Claim C10: `extract_raw_ccs` evaluates the checkpoint before the
has-CCS precondition — when the expected fastq output already exists,
the stage returns it for either oracle answer, with an empty effect
trace and for every post-state (so `file_has_ccs` is never consulted
and no post-condition check runs), although the same CCS-free input on
a fresh run is a fatal `ValueError`. -/
theorem C10_resume_bypasses_ccs_check (fs post : FS) (count : Nat)
    (input : String) :
    (file_exists fs (get_output_name input "fastq") = true →
      ∀ has_ccs, extract_raw_ccs fs post count has_ccs input =
        .ok (get_output_name input "fastq", count + 1, [])) ∧
    (file_exists fs (get_output_name input "fastq") = false →
      extract_raw_ccs fs post count false input =
        .error "ValueError: Raw data file has no CCS data!") := by
  constructor
  · intro h hc
    simp [extract_raw_ccs, process_setup, output_files_exist,
          get_output_name_ne_empty, h]
  · intro h
    simp [extract_raw_ccs, process_setup, output_files_exist,
          get_output_name_ne_empty, h]

/-- Claim C10 witness: with `reads.fastq` already present, a CCS-free
`reads.bas.h5` input succeeds silently on resume; on a fresh run the
same input raises the `ValueError`. -/
theorem C10_resume_bypasses_ccs_check_witness :
    extract_raw_ccs [("reads.fastq", 9)] [] 0 false "reads.bas.h5" =
      .ok ("reads.fastq", 1, []) ∧
    extract_raw_ccs [] [] 0 false "reads.bas.h5" =
      .error "ValueError: Raw data file has no CCS data!" := by
  constructor
  · exact (C10_resume_bypasses_ccs_check [("reads.fastq", 9)] [] 0
      "reads.bas.h5").1 (by decide) false
  · exact (C10_resume_bypasses_ccs_check [] [] 0 "reads.bas.h5").2 (by decide)

end RDna

